import Mathlib

/-!
# Verification of the news-portal authorization / mutation core

A shallow embedding of the GraphQL news-portal backend (Django + graphene).
The relational stores are lists of rows; each mutation of
`newsportal/mutations.py` (and, where a claim cites it, the parallel legacy
module `newsportal/schema.py`) is a function from the database state and the
acting user to `Except String (DB × result)`: `GraphQLError msg` becomes
`Except.error msg`, and a successful mutation returns the new state.  All
mutations are transactional in the source (`@transaction.atomic`, or a single
row write), so an error result carries no state change.  Wall-clock time
(`timezone.now()`) is passed in as a `now : Nat` parameter.  The relay global
identifiers (`from_global_id`) decode to a `(type_name, db_id)` pair, embedded
here directly as `GlobalId`.  The Postgres full-text machinery
(`SearchVector` / `SearchQuery` / `SearchRank`) is an external engine; it is
embedded as an oracle `TextIndex` giving, for the query term, each article's
per-field term frequency and whether the article matches; the weighted rank
assembled from it mirrors `SearchVector(title, weight=A) +
SearchVector(summary, weight=B) + SearchVector(content, weight=C)` with the
engine's default weight values A = 1.0, B = 0.4, C = 0.2.
-/

namespace NewsPortal

/-- `users.models.User`: id, unique username/email, role string
(reader / journalist / editor), profile fields.  The password hash and image
fields play no part in any claim and are omitted. -/
structure UserRec where
  id : Nat
  username : String
  email : String
  role : String := "reader"
  firstName : Option String := none
  lastName : Option String := none
  bio : String := ""
  deriving Repr, DecidableEq

/-- `categories.models.Category`: id, unique name and slug (parent link and
description omitted; no claim touches them). -/
structure CategoryRec where
  id : Nat
  name : String
  slug : String
  deriving Repr, DecidableEq

/-- `news.models.Tag`: id, unique name and slug. -/
structure TagRec where
  id : Nat
  name : String
  slug : String
  deriving Repr, DecidableEq

/-- `news.models.Article`: the article row.  `publishedAt` is the nullable
`published_at` timestamp; `tagIds` embeds the many-to-many `tags` relation. -/
structure ArticleRec where
  id : Nat
  title : String
  slug : Option String := none
  summary : String
  content : String
  authorId : Nat
  categoryId : Nat
  tagIds : List Nat := []
  status : String := "draft"
  isFeatured : Bool := false
  viewsCount : Nat := 0
  publishedAt : Option Nat := none
  deriving Repr, DecidableEq

/-- `news.models.Comment`: `is_approved` defaults to `True` in the model. -/
structure CommentRec where
  id : Nat
  articleId : Nat
  userId : Nat
  parentId : Option Nat := none
  content : String
  isApproved : Bool := true
  deriving Repr, DecidableEq

/-- A `news.models.Like` (or `Bookmark`) row: the `(article, user)` pair.
`unique_together = (article, user)` is the store's uniqueness constraint;
the row id and `created_at` affect no claim and are omitted, so a list of
`LikeRec` with no duplicate entry models a table satisfying the constraint. -/
structure LikeRec where
  articleId : Nat
  userId : Nat
  deriving Repr, DecidableEq

/-- The relational state: one list of rows per table.  `nextId` models the
auto-increment primary key given to a newly inserted row. -/
structure DB where
  users : List UserRec := []
  categories : List CategoryRec := []
  tags : List TagRec := []
  articles : List ArticleRec := []
  comments : List CommentRec := []
  likes : List LikeRec := []
  bookmarks : List LikeRec := []
  nextId : Nat := 1
  deriving Repr, DecidableEq

/-- What `graphene.relay.node.from_global_id` yields: the embedded type tag
and the numeric database id. -/
structure GlobalId where
  typeName : String
  dbId : Nat
  deriving Repr, DecidableEq

/-- `mutations.require_auth`: the acting user, or the login error.  An
unauthenticated request carries `none`. -/
def require_auth (authUser : Option UserRec) : Except String UserRec :=
  match authUser with
  | none => Except.error "You need to be logged in to perform this action"
  | some user => Except.ok user

/-- `mutations.require_role`: error unless the user's role is in `roles`. -/
def require_role (user : UserRec) (roles : List String) : Except String Unit :=
  if user.role ∈ roles then Except.ok ()
  else Except.error "You don't have permission to perform this action"

/-- `mutations.get_object_or_error` specialised to articles:
`Article.objects.get(pk=db_id)` or the given not-found message. -/
def getArticleOrError (db : DB) (dbId : Nat) (msg : String) :
    Except String ArticleRec :=
  match db.articles.find? (fun a => a.id == dbId) with
  | some a => Except.ok a
  | none => Except.error msg

/-- `Category.objects.get(pk=db_id)` with the caller's not-found message. -/
def getCategoryOrError (db : DB) (dbId : Nat) (msg : String) :
    Except String CategoryRec :=
  match db.categories.find? (fun c => c.id == dbId) with
  | some c => Except.ok c
  | none => Except.error msg

/-- `django.utils.text.slugify`, modelled as: lower-case, spaces to hyphens,
characters other than letters, digits and hyphens dropped. -/
def slugify (s : String) : String :=
  String.mk (((s.toLower.toList.map
    (fun c => if c = Char.ofNat 32 then Char.ofNat 45 else c)).filter
    (fun c => c.isAlphanum || c = Char.ofNat 45)))

/-- `Article.save` (news/models.py): derive the slug from the title when
blank, and stamp `published_at` with the current time when the status is
"published" and `published_at` is not already set. -/
def articleSave (now : Nat) (a : ArticleRec) : ArticleRec :=
  let a1 := if a.slug = none then { a with slug := some (slugify a.title) } else a
  if a1.status = "published" ∧ a1.publishedAt = none then
    { a1 with publishedAt := some now }
  else a1

/-- `mutations.LikeArticle.mutate`: authentication, the global-id type check,
the article lookup, then `Like.objects.get_or_create` — delete the row and
report `false` when it already exists, insert it and report `true` otherwise. -/
def likeArticle (db : DB) (authUser : Option UserRec) (articleId : GlobalId) :
    Except String (DB × Bool) :=
  match require_auth authUser with
  | Except.error e => Except.error e
  | Except.ok user =>
    if articleId.typeName ≠ "ArticleType" then Except.error "Invalid ID type"
    else match getArticleOrError db articleId.dbId "Article not found" with
    | Except.error e => Except.error e
    | Except.ok article =>
      let row : LikeRec := { articleId := article.id, userId := user.id }
      if db.likes.contains row then
        Except.ok ({ db with likes := db.likes.erase row }, false)
      else
        Except.ok ({ db with likes := db.likes ++ [row] }, true)

/-- `mutations.BookmarkArticle.mutate`: the same toggle on the bookmark table. -/
def bookmarkArticle (db : DB) (authUser : Option UserRec) (articleId : GlobalId) :
    Except String (DB × Bool) :=
  match require_auth authUser with
  | Except.error e => Except.error e
  | Except.ok user =>
    if articleId.typeName ≠ "ArticleType" then Except.error "Invalid ID type"
    else match getArticleOrError db articleId.dbId "Article not found" with
    | Except.error e => Except.error e
    | Except.ok article =>
      let row : LikeRec := { articleId := article.id, userId := user.id }
      if db.bookmarks.contains row then
        Except.ok ({ db with bookmarks := db.bookmarks.erase row }, false)
      else
        Except.ok ({ db with bookmarks := db.bookmarks ++ [row] }, true)

/-- The tag-id loop of `CreateArticle.mutate` / `UpdateArticle.mutate`:
each relay id must carry the `TagType` tag; the first mismatch raises
"Invalid ID type", otherwise the numeric ids are collected. -/
def checkTagIds : List GlobalId → Except String (List Nat)
  | [] => Except.ok []
  | t :: ts =>
    if t.typeName ≠ "TagType" then Except.error "Invalid ID type"
    else match checkTagIds ts with
    | Except.error e => Except.error e
    | Except.ok ids => Except.ok (t.dbId :: ids)

/-- `article.tags.set(Tag.objects.filter(id__in=tag_db_ids))`: the article's
tag set becomes the existing tags whose id is among `tagDbIds`. -/
def setTags (db : DB) (a : ArticleRec) (tagDbIds : List Nat) : ArticleRec :=
  let chosen := (db.tags.filter (fun t => tagDbIds.contains t.id)).map (fun t => t.id)
  { a with tagIds := chosen }

/-- Write an article row back: every row with the article's id is replaced. -/
def putArticle (db : DB) (a : ArticleRec) : DB :=
  { db with articles := db.articles.map (fun x => if x.id = a.id then a else x) }

/-- `mutations.CreateArticle.mutate`: authentication, the journalist/editor
role gate, the category id type check and lookup, then
`Article.objects.create(..., published_at=now if status == "published" else
None)` (which runs `Article.save`), then the tag loop.  The whole mutation is
`@transaction.atomic`: an error from the tag loop rolls back the insert,
which the `Except` result models by carrying no state. -/
def createArticle (db : DB) (authUser : Option UserRec) (now : Nat)
    (title summary content : String) (categoryId : GlobalId)
    (tagIds : Option (List GlobalId) := none) (isFeatured : Bool := false)
    (status : String := "draft") : Except String (DB × ArticleRec) :=
  match require_auth authUser with
  | Except.error e => Except.error e
  | Except.ok user =>
    match require_role user ["journalist", "editor"] with
    | Except.error e => Except.error e
    | Except.ok _ =>
      if categoryId.typeName ≠ "CategoryType" then Except.error "Invalid ID type"
      else match getCategoryOrError db categoryId.dbId "Category not found" with
      | Except.error e => Except.error e
      | Except.ok category =>
        let article := articleSave now
          { id := db.nextId, title := title, summary := summary,
            content := content, authorId := user.id, categoryId := category.id,
            status := status, isFeatured := isFeatured,
            publishedAt := if status = "published" then some now else none }
        let db1 := { db with articles := db.articles ++ [article],
                             nextId := db.nextId + 1 }
        match tagIds with
        | none => Except.ok (db1, article)
        | some tgs =>
          -- Python `if tag_ids:`: an empty list is falsy and skips the loop.
          if tgs.isEmpty then Except.ok (db1, article)
          else match checkTagIds tgs with
          | Except.error e => Except.error e
          | Except.ok tagDbIds =>
            let article1 := setTags db1 article tagDbIds
            Except.ok (putArticle db1 article1, article1)

/-- `mutations.UpdateArticle.mutate`.  The source checks the id's type tag
first, then authentication, then looks the article up, then allows only the
author or an editor; the patch applies exactly the supplied fields, and —
unconditionally — re-stamps `published_at` whenever the supplied status is
"published" (lines 344–347), before `article.save()` runs. -/
def updateArticle (db : DB) (authUser : Option UserRec) (now : Nat)
    (id : GlobalId) (title : Option String := none)
    (summary : Option String := none) (content : Option String := none)
    (categoryId : Option GlobalId := none)
    (tagIds : Option (List GlobalId) := none) (isFeatured : Option Bool := none)
    (status : Option String := none) : Except String (DB × ArticleRec) :=
  if id.typeName ≠ "ArticleType" then Except.error "Invalid ID type"
  else match require_auth authUser with
  | Except.error e => Except.error e
  | Except.ok user =>
    match getArticleOrError db id.dbId "Article not found" with
    | Except.error e => Except.error e
    | Except.ok article =>
      if user.id ≠ article.authorId ∧ user.role ≠ "editor" then
        Except.error "Only the author or an editor can update this article"
      else
        let a1 := match title with
          | some t => { article with title := t } | none => article
        let a2 := match summary with
          | some s => { a1 with summary := s } | none => a1
        let a3 := match content with
          | some c => { a2 with content := c } | none => a2
        match (match categoryId with
          | none => Except.ok a3
          | some cg =>
            if cg.typeName ≠ "CategoryType" then Except.error "Invalid ID type"
            else match getCategoryOrError db cg.dbId "Category not found" with
            | Except.error e => Except.error e
            | Except.ok c => Except.ok { a3 with categoryId := c.id }) with
        | Except.error e => Except.error e
        | Except.ok a4 =>
          let a5 := match status with
            | none => a4
            | some s =>
              let aS := { a4 with status := s }
              if s = "published" then { aS with publishedAt := some now }
              else aS
          let a6 := match isFeatured with
            | some f => { a5 with isFeatured := f } | none => a5
          let a7 := articleSave now a6
          let db1 := putArticle db a7
          match tagIds with
          | none => Except.ok (db1, a7)
          | some tgs =>
            match checkTagIds tgs with
            | Except.error e => Except.error e
            | Except.ok tagDbIds =>
              let a8 := setTags db1 a7 tagDbIds
              Except.ok (putArticle db1 a8, a8)

/-- `mutations.DeleteArticle.mutate`: the id type check, authentication, the
lookup, the author-or-editor gate, then `article.delete()`, which cascades to
the comments, likes and bookmarks referencing the article
(`on_delete=CASCADE`). -/
def deleteArticle (db : DB) (authUser : Option UserRec) (id : GlobalId) :
    Except String (DB × Bool) :=
  if id.typeName ≠ "ArticleType" then Except.error "Invalid ID type"
  else match require_auth authUser with
  | Except.error e => Except.error e
  | Except.ok user =>
    match getArticleOrError db id.dbId "Article not found" with
    | Except.error e => Except.error e
    | Except.ok article =>
      if user.id ≠ article.authorId ∧ user.role ≠ "editor" then
        Except.error "Only the author or an editor can delete this article"
      else
        Except.ok ({ db with
          articles := db.articles.filter (fun a => a.id ≠ article.id),
          comments := db.comments.filter (fun c => c.articleId ≠ article.id),
          likes := db.likes.filter (fun l => l.articleId ≠ article.id),
          bookmarks := db.bookmarks.filter (fun b => b.articleId ≠ article.id) },
          true)

/-- `mutations.AddComment.mutate`: authentication, the article id type check
and lookup, then — only when a parent id was supplied — the parent id type
check and lookup.  The parent is accepted as found: the source never compares
`parent.article` with the article being commented on.  The new comment takes
the model default `is_approved = True`. -/
def addComment (db : DB) (authUser : Option UserRec) (articleId : GlobalId)
    (content : String) (parentId : Option GlobalId := none) :
    Except String (DB × CommentRec) :=
  match require_auth authUser with
  | Except.error e => Except.error e
  | Except.ok user =>
    if articleId.typeName ≠ "ArticleType" then Except.error "Invalid ID type"
    else match getArticleOrError db articleId.dbId
        "Article not found or not published" with
    | Except.error e => Except.error e
    | Except.ok article =>
      match (match parentId with
        | none => Except.ok none
        | some pg =>
          if pg.typeName ≠ "CommentType" then Except.error "Invalid ID type"
          else match db.comments.find? (fun c => c.id == pg.dbId) with
          | some c => Except.ok (some c)
          | none => Except.error "Comment not found" :
          Except String (Option CommentRec)) with
      | Except.error e => Except.error e
      | Except.ok parent =>
        let comment : CommentRec :=
          { id := db.nextId, articleId := article.id, userId := user.id,
            parentId := parent.map (fun c => c.id), content := content }
        Except.ok ({ db with comments := db.comments ++ [comment],
                             nextId := db.nextId + 1 }, comment)

/-- `mutations.Signup.mutate`: no authentication and no restriction on the
requested role — the `role` argument (default "reader") is stored as given.
Only username/email uniqueness is checked. -/
def signup (db : DB) (username email password : String)
    (firstName : Option String := none) (lastName : Option String := none)
    (role : String := "reader") (bio : String := "") :
    Except String (DB × UserRec) :=
  if db.users.any (fun u => u.username == username) then
    Except.error "Username already taken"
  else if db.users.any (fun u => u.email == email) then
    Except.error "Email already taken"
  else
    let user : UserRec :=
      { id := db.nextId, username := username, email := email, role := role,
        firstName := firstName, lastName := lastName, bio := bio }
    Except.ok ({ db with users := db.users ++ [user], nextId := db.nextId + 1 },
      user)

/-- `schema.UpdateArticle.mutate`, the legacy module's variant: it takes a raw
numeric id, and its permission check (schema.py lines 511–514) allows exactly
a journalist or an editor — authorship is never consulted.  The status patch
sets the field only; stamping is left to `Article.save`.  `is_featured`
defaults to `False` (not `None`), and `category_id` is assigned unchecked. -/
def updateArticleSchema (db : DB) (authUser : Option UserRec) (now : Nat)
    (id : Nat) (title : Option String := none) (summary : Option String := none)
    (content : Option String := none) (categoryId : Option Nat := none)
    (tagIds : Option (List Nat) := none) (isFeatured : Option Bool := some false)
    (status : Option String := none) : Except String (DB × ArticleRec) :=
  match authUser with
  | none => Except.error "You don't have permission to create articles"
  | some user =>
    if ¬(user.role = "journalist" ∨ user.role = "editor") then
      Except.error "You don't have permission to create articles"
    else match db.articles.find? (fun a => a.id == id) with
    | none => Except.error "Article matching query does not exist."
    | some article =>
      let a1 := match title with
        | some t => { article with title := t } | none => article
      let a2 := match summary with
        | some s => { a1 with summary := s } | none => a1
      let a3 := match content with
        | some c => { a2 with content := c } | none => a2
      let a4 := match categoryId with
        | some c => { a3 with categoryId := c } | none => a3
      let a5 := match isFeatured with
        | some f => { a4 with isFeatured := f } | none => a4
      let a6 := match status with
        | some s => { a5 with status := s } | none => a5
      let a7 := articleSave now a6
      let db1 := putArticle db a7
      match tagIds with
      | none => Except.ok (db1, a7)
      | some tagDbIds =>
        let a8 := setTags db1 a7 tagDbIds
        Except.ok (putArticle db1 a8, a8)

/-- Whether `sub` starts `l` (character lists). -/
def leadsWith : List Char → List Char → Bool
  | [], _ => true
  | _ :: _, [] => false
  | a :: as, b :: bs => a == b && leadsWith as bs

/-- Whether `sub` occurs contiguously inside `l`. -/
def hasSub (sub : List Char) : List Char → Bool
  | [] => sub.isEmpty
  | c :: rest => leadsWith sub (c :: rest) || hasSub sub rest

/-- Django's `field__icontains=needle`: case-insensitive substring test. -/
def icontains (s needle : String) : Bool :=
  hasSub needle.toLower.toList s.toLower.toList

/-- The Postgres full-text engine's answer for one query term, supplied as an
oracle: whether each article's weighted document matches the term, and the
per-field term statistic `ts_rank` aggregates.  The engine itself (parsing,
stemming, proximity) stays external, exactly as the spec scopes it. -/
structure TextIndex where
  matchesQ : Nat → Bool
  tfTitle : Nat → ℚ
  tfSummary : Nat → ℚ
  tfContent : Nat → ℚ

/-- The weighted relevance rank of
`SearchVector("title", weight=A) + SearchVector("summary", weight=B) +
SearchVector("content", weight=C)` under `SearchRank`'s default weight values
D = 0.1, C = 0.2, B = 0.4, A = 1.0: the title counts with weight 1, the
summary with 2/5, the content with 1/5. -/
def searchRank (idx : TextIndex) (i : Nat) : ℚ :=
  idx.tfTitle i * 1 + idx.tfSummary i * (2 / 5) + idx.tfContent i * (1 / 5)

/-- `ORDER BY ... "published_at" DESC` on a nullable column: Postgres puts
nulls first in descending order. -/
def pubDescLe (a b : ArticleRec) : Prop :=
  match a.publishedAt, b.publishedAt with
  | none, _ => True
  | some _, none => False
  | some x, some y => y ≤ x

instance : DecidableRel pubDescLe := fun a b => by
  unfold pubDescLe
  cases a.publishedAt <;> cases b.publishedAt <;> exact inferInstance

instance : IsTotal ArticleRec pubDescLe :=
  ⟨by
    intro a b
    unfold pubDescLe
    cases a.publishedAt <;> cases b.publishedAt <;> simp [Nat.le_total]⟩

instance : IsTrans ArticleRec pubDescLe :=
  ⟨by
    intro a b c
    unfold pubDescLe
    cases a.publishedAt <;> cases b.publishedAt <;> cases c.publishedAt <;>
      (simp; try omega)⟩

/-- `ORDER BY rank DESC, published_at DESC`: higher rank first, ties broken
by later publication. -/
def searchLe (idx : TextIndex) (a b : ArticleRec) : Prop :=
  searchRank idx b.id < searchRank idx a.id ∨
    (searchRank idx a.id = searchRank idx b.id ∧ pubDescLe a b)

instance (idx : TextIndex) : DecidableRel (searchLe idx) := fun a b => by
  unfold searchLe
  exact inferInstance

instance (idx : TextIndex) : IsTotal ArticleRec (searchLe idx) :=
  ⟨by
    intro a b
    unfold searchLe
    rcases lt_trichotomy (searchRank idx a.id) (searchRank idx b.id) with h | h | h
    · exact Or.inr (Or.inl h)
    · rcases total_of pubDescLe a b with hp | hp
      · exact Or.inl (Or.inr ⟨h, hp⟩)
      · exact Or.inr (Or.inr ⟨h.symm, hp⟩)
    · exact Or.inl (Or.inl h)⟩

instance (idx : TextIndex) : IsTrans ArticleRec (searchLe idx) :=
  ⟨by
    intro a b c hab hbc
    unfold searchLe at *
    rcases hab with h1 | ⟨h1, p1⟩ <;> rcases hbc with h2 | ⟨h2, p2⟩
    · exact Or.inl (h2.trans h1)
    · exact Or.inl (h2 ▸ h1)
    · exact Or.inl (h1 ▸ h2)
    · exact Or.inr ⟨h1.trans h2, trans_of pubDescLe p1 p2⟩⟩

/-- `Article.search` (news/models.py): `if not query: return none()`, then the
match filter conjoined with `status="published"`, ordered by
`-rank, -published_at`.  `engine` is the text engine specialised per term. -/
def articleSearch (engine : String → TextIndex) (query : Option String)
    (db : DB) : List ArticleRec :=
  match query with
  | none => []
  | some q =>
    if q = "" then []
    else
      let idx := engine q
      List.insertionSort (searchLe idx)
        (db.articles.filter (fun a => idx.matchesQ a.id && a.status == "published"))

/-- `newsportal/search.py fulltext_search_articles`: annotates the rank and
keeps `rank >= 0.1` — with no status filter and no match filter — then the
optional category-slug filter, ordered `-rank, -published_at`. -/
def fulltext_search_articles (engine : String → TextIndex) (term : String)
    (db : DB) (categorySlug : Option String := none) : List ArticleRec :=
  let idx := engine term
  let qs := db.articles.filter (fun a => decide ((1 : ℚ) / 10 ≤ searchRank idx a.id))
  let qs := match categorySlug with
    | some cs =>
      -- Python `if category_slug:`: the empty string is falsy.
      if cs ≠ "" then
        qs.filter (fun a =>
          db.categories.any (fun c => c.id == a.categoryId && c.slug == cs))
      else qs
    | none => qs
  List.insertionSort (searchLe idx) qs

/-- `queries.Query.resolve_search_articles`: a case-insensitive substring
match over title, summary and content, restricted to `status="published"`;
no relevance ordering — the model's default `-published_at` ordering applies. -/
def resolve_search_articles (db : DB) (query : String) : List ArticleRec :=
  List.insertionSort pubDescLe
    (db.articles.filter (fun a =>
      (icontains a.title query || icontains a.summary query ||
        icontains a.content query) && a.status == "published"))

/-- `schema.Query.resolve_search_articles` (the legacy module): `if not
query: return []`, then the same substring filter on published articles. -/
def schemaSearchArticles (db : DB) (query : Option String) : List ArticleRec :=
  match query with
  | none => []
  | some q =>
    if q = "" then []
    else
      List.insertionSort pubDescLe
        (db.articles.filter (fun a =>
          (icontains a.title q || icontains a.summary q ||
            icontains a.content q) && a.status == "published"))

/-- `qs.order_by(order_by)` for the keys the resolver is given; the claims
exercise only the default `-published_at`.  Another key is delegated to the
storage engine and left as the store's order here. -/
def orderArticlesBy (key : String) (l : List ArticleRec) : List ArticleRec :=
  if key = "-published_at" then List.insertionSort pubDescLe l else l

/-- `queries.Query.resolve_articles`: no authentication of any kind — the
resolver never reads `info.context.user` (`actingUser` is taken and ignored
to make that checkable).  `status` defaults to "published"; each filter is
applied only when its argument is truthy. -/
def resolve_articles (db : DB) (actingUser : Option UserRec)
    (search : Option String := none) (categorySlug : Option String := none)
    (tag : Option String := none) (status : Option String := some "published")
    (orderBy : Option String := some "-published_at") : List ArticleRec :=
  let qs := db.articles
  let qs := match search with
    | some s =>
      if s ≠ "" then
        qs.filter (fun a =>
          icontains a.title s || icontains a.summary s || icontains a.content s)
      else qs
    | none => qs
  let qs := match categorySlug with
    | some cs =>
      if cs ≠ "" then
        qs.filter (fun a =>
          db.categories.any (fun c => c.id == a.categoryId && c.slug == cs))
      else qs
    | none => qs
  let qs := match tag with
    | some t =>
      if t ≠ "" then
        qs.filter (fun a => db.tags.any (fun tg => a.tagIds.contains tg.id && tg.slug == t))
      else qs
    | none => qs
  let qs := match status with
    | some st => if st ≠ "" then qs.filter (fun a => a.status == st) else qs
    | none => qs
  match orderBy with
  | some ob => if ob ≠ "" then orderArticlesBy ob qs else qs
  | none => qs

/-- `queries.Query.resolve_articles_by_category`: the source takes
`from_global_id(category_id)[1]` — the numeric part only; the embedded type
tag is never compared, and no error path exists.  The model's default
ordering applies. -/
def resolve_articles_by_category (db : DB) (categoryId : GlobalId) :
    List ArticleRec :=
  List.insertionSort pubDescLe
    (db.articles.filter (fun a =>
      a.categoryId == categoryId.dbId && a.status == "published"))

/-! ## Concrete fixtures -/

/-- C1: the journalist who authored the already-published article. -/
def c1Author : UserRec :=
  { id := 1, username := "ana", email := "ana@example.com", role := "journalist" }

/-- C1: an article already published at time 5. -/
def c1Article : ArticleRec :=
  { id := 1, title := "AI Wins", slug := some "ai-wins", summary := "s",
    content := "c", authorId := 1, categoryId := 1, status := "published",
    publishedAt := some 5 }

/-- C1: the store holding that article. -/
def c1Db : DB :=
  { users := [c1Author], categories := [{ id := 1, name := "Tech", slug := "tech" }],
    articles := [c1Article], nextId := 2 }

/-- C2: the author of the article (a journalist). -/
def c2Author : UserRec :=
  { id := 1, username := "ana", email := "ana@example.com", role := "journalist" }

/-- C2: a second journalist who did not author the article. -/
def c2Journalist : UserRec :=
  { id := 2, username := "jo", email := "jo@example.com", role := "journalist" }

/-- C2: the article, authored by user 1. -/
def c2Article : ArticleRec :=
  { id := 1, title := "T", slug := some "t", summary := "s", content := "c",
    authorId := 1, categoryId := 1 }

/-- C2: the store. -/
def c2Db : DB :=
  { users := [c2Author, c2Journalist],
    categories := [{ id := 1, name := "Tech", slug := "tech" }],
    articles := [c2Article], nextId := 2 }

/-- C4: the commenting reader. -/
def c4User : UserRec := { id := 3, username := "bo", email := "bo@example.com" }

/-- C4: a comment that belongs to article 2. -/
def c4Parent : CommentRec :=
  { id := 10, articleId := 2, userId := 3, content := "root" }

/-- C4: two articles; the parent comment hangs off article 2. -/
def c4Db : DB :=
  { users := [c4User],
    articles :=
      [{ id := 1, title := "A", slug := some "a", summary := "s", content := "c",
         authorId := 1, categoryId := 1 },
       { id := 2, title := "B", slug := some "b", summary := "s", content := "c",
         authorId := 1, categoryId := 1 }],
    comments := [c4Parent], nextId := 11 }

/-- C5: a text engine under which every article matches with title-field
statistic 1/2 (so rank 1/2). -/
def c5Engine : String → TextIndex := fun _ =>
  { matchesQ := fun _ => true, tfTitle := fun _ => 1 / 2,
    tfSummary := fun _ => 0, tfContent := fun _ => 0 }

/-- C5: a draft article. -/
def c5Draft : ArticleRec :=
  { id := 1, title := "Climate now", slug := some "climate-now", summary := "s",
    content := "c", authorId := 1, categoryId := 1, status := "draft" }

/-- C5: the store holding only that draft. -/
def c5Db : DB := { articles := [c5Draft], nextId := 2 }

/-- C7: a published article in category 9. -/
def c7Art : ArticleRec :=
  { id := 4, title := "T", slug := some "t", summary := "s", content := "c",
    authorId := 1, categoryId := 9, status := "published", publishedAt := some 3 }

/-- C7: the store. -/
def c7Db : DB := { articles := [c7Art], nextId := 5 }

/-- C10: an arbitrary concrete text engine for the witness. -/
def c10Engine : String → TextIndex := fun _ =>
  { matchesQ := fun _ => true, tfTitle := fun _ => 1,
    tfSummary := fun _ => 0, tfContent := fun _ => 0 }

/-- C4: the first article of `c4Db`, the one being commented on. -/
def c4Article1 : ArticleRec :=
  { id := 1, title := "A", slug := some "a", summary := "s", content := "c",
    authorId := 1, categoryId := 1 }

/-- C5: a published article fixture for the witness. -/
def c5Published : ArticleRec :=
  { id := 2, title := "Climate report", slug := some "climate-report",
    summary := "s", content := "c", authorId := 1, categoryId := 1,
    status := "published", publishedAt := some 4 }

/-- C3: a reader for the witness. -/
def c3User : UserRec := { id := 7, username := "rae", email := "rae@example.com" }

/-- C3: the article of `c3Db`. -/
def c3Article : ArticleRec :=
  { id := 3, title := "T", slug := some "t", summary := "s", content := "c",
    authorId := 7, categoryId := 1 }

/-- C3: a store with one article and an empty like table. -/
def c3Db : DB :=
  { users := [c3User], articles := [c3Article], nextId := 4 }

/-! ## The claims -/

/-- C1 (code bug).  The spec and `Article.save` stamp `published_at` only when
it is not already set, but `UpdateArticle.mutate` (mutations.py 344–347)
assigns `timezone.now()` unconditionally whenever the supplied status is
"published": re-publishing the article of `c1Db` (published at 5) at time 9
overwrites `published_at` to 9. -/
theorem updateArticle_republish_overwrites_published_at :
    (updateArticle c1Db (some c1Author) 9 { typeName := "ArticleType", dbId := 1 }
        none none none none none none (some "published")).map
      (fun r => r.2.publishedAt) = Except.ok (some 9) ∧
    c1Article.publishedAt = some 5 :=
  ⟨rfl, rfl⟩

/-- C2 counterexample.  The legacy module's `update_article`
(schema.py 511–514) checks only the journalist/editor role and never
authorship: journalist 2, who is not the author of article 1 and not an
editor, succeeds in updating it — the claim says every such user is denied. -/
theorem schema_update_allows_nonauthor_journalist :
    (∃ r, updateArticleSchema c2Db (some c2Journalist) 0 1 (some "New")
      none none none none (some false) none = Except.ok r) ∧
    c2Journalist.id ≠ c2Article.authorId ∧ c2Journalist.role ≠ "editor" :=
  ⟨⟨_, rfl⟩, by decide, by decide⟩

/-- C4 counterexample.  `addComment` on article 1 with the parent comment of
article 2 succeeds and creates the comment — the source never compares the
parent's article, while the claim requires a typed error and no comment. -/
theorem addComment_accepts_cross_article_parent :
    (∃ r, addComment c4Db (some c4User) { typeName := "ArticleType", dbId := 1 }
        "hi" (some { typeName := "CommentType", dbId := 10 }) = Except.ok r ∧
      r.2.articleId = 1 ∧ r.2.parentId = some 10) ∧
    c4Parent.articleId = 2 :=
  ⟨⟨_, rfl, rfl, rfl⟩, rfl⟩

/-- C5 counterexample.  `fulltext_search_articles` (newsportal/search.py)
filters on `rank >= 0.1` only — it never filters on status — so the draft
article appears in its result, while the claim says no draft ever appears in
a search result. -/
theorem fulltext_search_returns_draft :
    c5Draft ∈ fulltext_search_articles c5Engine "climate" c5Db none ∧
    c5Draft.status = "draft" := by
  constructor
  · show c5Draft ∈ fulltext_search_articles c5Engine "climate" c5Db none
    simp only [fulltext_search_articles, c5Db, c5Engine, searchRank, c5Draft]
    norm_num
  · rfl

/-- C7 counterexample.  `resolve_articles_by_category` (queries.py 181–183)
takes `from_global_id(category_id)[1]` and drops the type tag: a global id
tagged `TagType` is accepted and the lookup runs on its numeric part,
returning the category's articles — no type-mismatch error is raised, while
the claim says every mismatched identifier fails with one. -/
theorem articles_by_category_ignores_type_tag :
    resolve_articles_by_category c7Db { typeName := "TagType", dbId := 9 } =
      [c7Art] ∧
    ("TagType" : String) ≠ "CategoryType" :=
  ⟨rfl, by decide⟩
/-- C7 (amended).  In the mutations module every operation that accepts a
relay global identifier rejects a mismatched embedded type tag with the
distinct error "Invalid ID type" (never the not-found error) and performs no
state change — an `Except.error` result carries no store. -/
theorem mutations_reject_mismatched_type_tag (db : DB) (au : Option UserRec)
    (u : UserRec) (now : Nat) (gid : GlobalId) (title summary content : Option String)
    (cat : Option GlobalId) (tags : Option (List GlobalId)) (isF : Option Bool)
    (status : Option String) (text : String) (pgid : Option GlobalId)
    (hty : gid.typeName ≠ "ArticleType") :
    updateArticle db au now gid title summary content cat tags isF status =
      Except.error "Invalid ID type" ∧
    deleteArticle db au gid = Except.error "Invalid ID type" ∧
    likeArticle db (some u) gid = Except.error "Invalid ID type" ∧
    bookmarkArticle db (some u) gid = Except.error "Invalid ID type" ∧
    addComment db (some u) gid text pgid = Except.error "Invalid ID type" := by
  refine ⟨?_, ?_, ?_, ?_, ?_⟩ <;>
    simp [updateArticle, deleteArticle, likeArticle, bookmarkArticle, addComment,
      require_auth, hty]

/-- C7 witness: a `CategoryType`-tagged id offered where an article id is
expected is rejected by all five mutations. -/
theorem mutations_reject_mismatched_type_tag_witness :
    updateArticle {} (some c4User) 0 { typeName := "CategoryType", dbId := 1 }
      none none none none none none none = Except.error "Invalid ID type" ∧
    deleteArticle {} (some c4User) { typeName := "CategoryType", dbId := 1 } =
      Except.error "Invalid ID type" ∧
    likeArticle {} (some c4User) { typeName := "CategoryType", dbId := 1 } =
      Except.error "Invalid ID type" ∧
    bookmarkArticle {} (some c4User) { typeName := "CategoryType", dbId := 1 } =
      Except.error "Invalid ID type" ∧
    addComment {} (some c4User) { typeName := "CategoryType", dbId := 1 } "x" none =
      Except.error "Invalid ID type" :=
  mutations_reject_mismatched_type_tag {} (some c4User) c4User 0
    { typeName := "CategoryType", dbId := 1 } none none none none none none none
    "x" none (by decide)

/-- C10.  Both full-text entry points return the empty result, without any
error, for an empty query: `Article.search` guards `if not query` and
`schema.resolve_search_articles` guards the same way, so `None` and the
empty string both yield no articles. -/
theorem empty_query_searches_empty (engine : String → TextIndex) (db : DB)
    (q : Option String) (h : q = none ∨ q = some "") :
    articleSearch engine q db = [] ∧ schemaSearchArticles db q = [] := by
  rcases h with h | h <;> subst h <;>
    simp [articleSearch, schemaSearchArticles]

/-- C10 witness: the empty string query on the empty store. -/
theorem empty_query_searches_empty_witness :
    articleSearch c10Engine (some "") {} = [] ∧
    schemaSearchArticles {} (some "") = [] :=
  empty_query_searches_empty c10Engine {} (some "") (Or.inr rfl)

/-- C6.  `createArticle` denies a reader with the role-gate permission error
(and, the error carrying no store, creates nothing); a journalist whose
request omits the `status` argument gets an article created with status
"draft" and `published_at` null. -/
theorem createArticle_reader_denied_journalist_draft (db : DB) (u : UserRec)
    (now : Nat) (title summary content : String) (cgid : GlobalId) :
    (u.role = "reader" →
      createArticle db (some u) now title summary content cgid =
        Except.error "You don't have permission to perform this action") ∧
    (u.role = "journalist" → cgid.typeName = "CategoryType" →
      ∀ cat, db.categories.find? (fun c => c.id == cgid.dbId) = some cat →
        ∃ db1 a, createArticle db (some u) now title summary content cgid =
          Except.ok (db1, a) ∧ a.status = "draft" ∧ a.publishedAt = none ∧
          a.authorId = u.id ∧ db1.articles = db.articles ++ [a]) := by
  constructor
  · intro hrole
    simp [createArticle, require_auth, require_role, hrole]
  · intro hrole hty cat hcat
    let a0 : ArticleRec :=
      { id := db.nextId, title := title, summary := summary, content := content,
        authorId := u.id, categoryId := cat.id, status := "draft",
        isFeatured := false, publishedAt := none }
    let db1 : DB :=
      { db with articles := db.articles ++ [articleSave now a0],
                nextId := db.nextId + 1 }
    refine ⟨db1, articleSave now a0, ?_, ?_, ?_, ?_, ?_⟩
    · simp [createArticle, require_auth, require_role, hrole, hty,
        getCategoryOrError, hcat, a0]
    · simp [articleSave, a0]
    · simp [articleSave, a0]
    · simp [articleSave, a0]
    · rfl

/-- C8.  `signup` takes no acting user at all (the source performs no
authentication) and stores the caller-supplied role verbatim: with a fresh
username and email the created user carries exactly the requested role —
"editor" included — and the default call (role omitted) yields role
"reader". -/
theorem signup_stores_requested_role (db : DB)
    (username email password : String) (fn ln : Option String)
    (role bio : String)
    (hu : ∀ u ∈ db.users, u.username ≠ username)
    (he : ∀ u ∈ db.users, u.email ≠ email) :
    (∃ db1 nu, signup db username email password fn ln role bio =
      Except.ok (db1, nu) ∧ nu.role = role ∧ nu.username = username ∧
      db1.users = db.users ++ [nu]) ∧
    (∃ db1 nu, signup db username email password = Except.ok (db1, nu) ∧
      nu.role = "reader") := by
  have hu' : db.users.any (fun u => u.username == username) = false := by
    simp only [List.any_eq_false, Bool.not_eq_true, beq_eq_false_iff_ne]
    exact hu
  have he' : db.users.any (fun u => u.email == email) = false := by
    simp only [List.any_eq_false, Bool.not_eq_true, beq_eq_false_iff_ne]
    exact he
  constructor
  · let nu : UserRec :=
      { id := db.nextId, username := username, email := email, role := role,
        firstName := fn, lastName := ln, bio := bio }
    refine ⟨{ db with users := db.users ++ [nu], nextId := db.nextId + 1 },
      nu, ?_, rfl, rfl, rfl⟩
    simp [signup, hu', he', nu]
  · let nu : UserRec :=
      { id := db.nextId, username := username, email := email }
    refine ⟨{ db with users := db.users ++ [nu], nextId := db.nextId + 1 },
      nu, ?_, rfl⟩
    simp [signup, hu', he', nu]

/-- C8 witness: an unauthenticated signup on the empty store requesting the
role "editor" gets it, and the default call gets "reader". -/
theorem signup_stores_requested_role_witness :
    (∃ db1 nu, signup {} "eve" "eve@example.com" "pw" none none "editor" "" =
      Except.ok (db1, nu) ∧ nu.role = "editor" ∧ nu.username = "eve" ∧
      db1.users = ({} : DB).users ++ [nu]) ∧
    (∃ db1 nu, signup {} "eve" "eve@example.com" "pw" = Except.ok (db1, nu) ∧
      nu.role = "reader") :=
  signup_stores_requested_role {} "eve" "eve@example.com" "pw" none none
    "editor" "" (by simp) (by simp)

/-- C4 (amended).  `addComment` validates only the parent id's type tag and
the parent's existence: whenever the target article exists and the parent
comment exists — on whatever article — the comment is created with the model
default `is_approved = true`; no same-article check is performed. -/
theorem addComment_checks_only_parent_existence (db : DB) (u : UserRec)
    (agid : GlobalId) (text : String) (pgid : GlobalId) (a : ArticleRec)
    (pc : CommentRec) (hty : agid.typeName = "ArticleType")
    (hfa : db.articles.find? (fun x => x.id == agid.dbId) = some a)
    (hpty : pgid.typeName = "CommentType")
    (hfp : db.comments.find? (fun c => c.id == pgid.dbId) = some pc) :
    ∃ db1 c, addComment db (some u) agid text (some pgid) =
      Except.ok (db1, c) ∧ c.articleId = a.id ∧ c.parentId = some pc.id ∧
      c.isApproved = true ∧ db1.comments = db.comments ++ [c] := by
  let c0 : CommentRec :=
    { id := db.nextId, articleId := a.id, userId := u.id,
      parentId := some pc.id, content := text }
  let db1 : DB :=
    { db with comments := db.comments ++ [c0], nextId := db.nextId + 1 }
  refine ⟨db1, c0, ?_, rfl, rfl, rfl, rfl⟩
  simp [addComment, require_auth, hty, getArticleOrError, hfa, hpty, hfp,
    c0, db1]

/-- C4 witness: the cross-article fixture of the counterexample also
satisfies the amended statement's hypotheses. -/
theorem addComment_checks_only_parent_existence_witness :
    ∃ db1 c, addComment c4Db (some c4User)
        { typeName := "ArticleType", dbId := 1 } "hi"
        (some { typeName := "CommentType", dbId := 10 }) =
      Except.ok (db1, c) ∧ c.articleId = c4Article1.id ∧
      c.parentId = some c4Parent.id ∧ c.isApproved = true ∧
      db1.comments = c4Db.comments ++ [c] :=
  addComment_checks_only_parent_existence c4Db c4User
    { typeName := "ArticleType", dbId := 1 } "hi"
    { typeName := "CommentType", dbId := 10 } c4Article1 c4Parent rfl
    (by decide) rfl (by decide)

/-- C2 (amended).  In the mutations module, `update_article` and
`delete_article` succeed exactly when the acting user is the article's author
or has the editor role, any other authenticated user being denied with the
author-or-editor error (which, carrying no store, leaves the article
unchanged); the legacy module's `update_article` instead succeeds exactly
when the acting user's role is journalist or editor, regardless of
authorship. -/
theorem update_delete_require_author_or_editor (db : DB) (u : UserRec)
    (now : Nat) (gid : GlobalId) (a : ArticleRec)
    (title summary content : Option String) (isF isF2 : Option Bool)
    (status : Option String) (hty : gid.typeName = "ArticleType")
    (hfind : db.articles.find? (fun x => x.id == gid.dbId) = some a) :
    ((∃ r, updateArticle db (some u) now gid title summary content none none
        isF status = Except.ok r) ↔ u.id = a.authorId ∨ u.role = "editor") ∧
    ((∃ r, deleteArticle db (some u) gid = Except.ok r) ↔
      u.id = a.authorId ∨ u.role = "editor") ∧
    (¬(u.id = a.authorId ∨ u.role = "editor") →
      updateArticle db (some u) now gid title summary content none none
          isF status =
        Except.error "Only the author or an editor can update this article" ∧
      deleteArticle db (some u) gid =
        Except.error "Only the author or an editor can delete this article") ∧
    ((∃ r, updateArticleSchema db (some u) now gid.dbId title summary content
        none none isF2 status = Except.ok r) ↔
      u.role = "journalist" ∨ u.role = "editor") := by
  by_cases hAuth : u.id = a.authorId ∨ u.role = "editor"
  · have hcond : ¬(u.id ≠ a.authorId ∧ u.role ≠ "editor") := by tauto
    refine ⟨?_, ?_, ?_, ?_⟩
    · simp only [updateArticle, hty, require_auth, getArticleOrError, hfind]
      simp [hcond, hAuth]
    · simp only [deleteArticle, hty, require_auth, getArticleOrError, hfind]
      simp [hcond, hAuth]
    · intro h
      exact absurd hAuth h
    · by_cases hRole : u.role = "journalist" ∨ u.role = "editor"
      · simp only [updateArticleSchema, hfind]
        simp [hRole]
      · simp only [updateArticleSchema, hfind]
        simp [hRole]
  · have hcond : u.id ≠ a.authorId ∧ u.role ≠ "editor" := by tauto
    refine ⟨?_, ?_, ?_, ?_⟩
    · simp only [updateArticle, hty, require_auth, getArticleOrError, hfind]
      simp [hcond, hAuth]
    · simp only [deleteArticle, hty, require_auth, getArticleOrError, hfind]
      simp [hcond, hAuth]
    · intro _
      constructor
      · simp only [updateArticle, hty, require_auth, getArticleOrError, hfind]
        simp [hcond]
      · simp only [deleteArticle, hty, require_auth, getArticleOrError, hfind]
        simp [hcond]
    · by_cases hR : u.role = "journalist" ∨ u.role = "editor"
      · simp only [updateArticleSchema, hfind]
        simp [hR]
      · simp only [updateArticleSchema, hfind]
        simp [hR]

/-- C2 witness: the author of `c2Article` may update it. -/
theorem update_delete_require_author_or_editor_witness :
    ∃ r, updateArticle c2Db (some c2Author) 0
      { typeName := "ArticleType", dbId := 1 } none none none none none none
      none = Except.ok r :=
  ((update_delete_require_author_or_editor c2Db c2Author 0
    { typeName := "ArticleType", dbId := 1 } c2Article none none none none
    none none rfl (by decide)).1).mpr (Or.inl rfl)

/-- C9.  `resolve_articles` reads nothing of the acting user (any two
callers, the anonymous one included, get the same result); the `status`
filter defaults to "published", and passing `status="draft"` explicitly
returns exactly the draft articles of the store, whoever their authors are. -/
theorem resolve_articles_ignores_caller_and_serves_drafts (db : DB)
    (u1 u2 : Option UserRec) (search catSlug tag status ob : Option String) :
    resolve_articles db u1 search catSlug tag status ob =
      resolve_articles db u2 search catSlug tag status ob ∧
    (∀ a, a ∈ resolve_articles db u1 none none none (some "draft")
        (some "-published_at") ↔ a ∈ db.articles ∧ a.status = "draft") ∧
    (∀ a, a ∈ resolve_articles db u1 ↔
      a ∈ db.articles ∧ a.status = "published") := by
  refine ⟨rfl, ?_, ?_⟩ <;> intro a <;>
    simp [resolve_articles, orderArticlesBy, List.mem_filter]

/-- C5 (amended).  The model-layer full-text search (`Article.search`)
returns only published articles and is sorted by descending weighted rank
(title weight 1 above summary 2/5 above content 1/5), ties broken by
descending publication date; the two resolver-layer substring searches also
return only published articles (the `search.py` helper, shown draft-leaking
by the counterexample, filters on rank alone). -/
theorem search_returns_published_sorted_by_rank (engine : String → TextIndex)
    (q : String) (db : DB) :
    (∀ a ∈ articleSearch engine (some q) db, a.status = "published") ∧
    List.Sorted (searchLe (engine q)) (articleSearch engine (some q) db) ∧
    (∀ a ∈ resolve_search_articles db q, a.status = "published") ∧
    (∀ a ∈ schemaSearchArticles db (some q), a.status = "published") := by
  refine ⟨?_, ?_, ?_, ?_⟩
  · intro a ha
    by_cases hq : q = ""
    · simp [articleSearch, hq] at ha
    · simp only [articleSearch, hq, if_neg, if_false, List.mem_insertionSort,
        List.mem_filter, Bool.and_eq_true, beq_iff_eq] at ha
      exact ha.2.2
  · by_cases hq : q = ""
    · simp [articleSearch, hq]
    · simp only [articleSearch, hq, if_false]
      exact List.sorted_insertionSort _ _
  · intro a ha
    simp only [resolve_search_articles, List.mem_insertionSort,
      List.mem_filter, Bool.and_eq_true, beq_iff_eq] at ha
    exact ha.2.2
  · intro a ha
    by_cases hq : q = ""
    · simp [schemaSearchArticles, hq] at ha
    · simp only [schemaSearchArticles, hq, if_false, List.mem_insertionSort,
        List.mem_filter, Bool.and_eq_true, beq_iff_eq] at ha
      exact ha.2.2

/-- C5 witness: on a store holding one published matching article, the
model-layer search yields it and the theorem gives its published status. -/
theorem search_returns_published_sorted_by_rank_witness :
    c5Published.status = "published" :=
  (search_returns_published_sorted_by_rank c5Engine "climate"
      { articles := [c5Published], nextId := 3 }).1 c5Published
    (by
      show c5Published ∈ articleSearch c5Engine (some "climate")
        { articles := [c5Published], nextId := 3 }
      simp [articleSearch, c5Engine, c5Published])

/-- C3.  `toggleLike` is an involution on the like table: with the
`(article, user)` row absent it appends exactly that row and reports
`active := true`; with the row present it deletes it and reports
`active := false`; a duplicate-free table stays duplicate-free (the
`unique_together` invariant: rows are bare pairs, so `Nodup` says at most one
row per pair), and a second identical call restores the original table up to
permutation while touching no other table. -/
theorem toggleLike_involution (db : DB) (u : UserRec) (gid : GlobalId)
    (a : ArticleRec) (hty : gid.typeName = "ArticleType")
    (hfind : db.articles.find? (fun x => x.id == gid.dbId) = some a)
    (hnd : db.likes.Nodup) :
    ∃ db1 act1, likeArticle db (some u) gid = Except.ok (db1, act1) ∧
      (act1 = true ↔ LikeRec.mk a.id u.id ∉ db.likes) ∧
      (LikeRec.mk a.id u.id ∉ db.likes →
        db1.likes = db.likes ++ [LikeRec.mk a.id u.id]) ∧
      (LikeRec.mk a.id u.id ∈ db.likes →
        db1.likes = db.likes.erase (LikeRec.mk a.id u.id)) ∧
      db1.likes.Nodup ∧
      ∃ db2 act2, likeArticle db1 (some u) gid = Except.ok (db2, act2) ∧
        act2 = !act1 ∧ db2.likes.Perm db.likes ∧ db2.users = db.users ∧
        db2.articles = db.articles ∧ db2.comments = db.comments ∧
        db2.bookmarks = db.bookmarks := by
  by_cases hmem : LikeRec.mk a.id u.id ∈ db.likes
  · refine ⟨{ db with likes := db.likes.erase (LikeRec.mk a.id u.id) }, false,
      ?_, by simp [hmem], fun h => absurd hmem h, fun _ => rfl, hnd.erase _,
      ?_⟩
    · simp [likeArticle, require_auth, hty, getArticleOrError, hfind, hmem]
    · have hout : LikeRec.mk a.id u.id ∉
          db.likes.erase (LikeRec.mk a.id u.id) := hnd.not_mem_erase
      refine ⟨{ db with likes :=
          db.likes.erase (LikeRec.mk a.id u.id) ++ [LikeRec.mk a.id u.id] },
        true, ?_, rfl, ?_, rfl, rfl, rfl, rfl⟩
      · simp [likeArticle, require_auth, hty, getArticleOrError, hfind, hout]
      · exact (List.perm_append_singleton _ _).trans
          (List.perm_cons_erase hmem).symm
  · refine ⟨{ db with likes := db.likes ++ [LikeRec.mk a.id u.id] }, true,
      ?_, by simp [hmem], fun _ => rfl, fun h => absurd h hmem,
      by simp [List.nodup_append, hnd, hmem], ?_⟩
    · simp [likeArticle, require_auth, hty, getArticleOrError, hfind, hmem]
    · have hin : LikeRec.mk a.id u.id ∈
          db.likes ++ [LikeRec.mk a.id u.id] := by simp
      refine ⟨{ db with likes :=
          (db.likes ++ [LikeRec.mk a.id u.id]).erase (LikeRec.mk a.id u.id) },
        false, ?_, rfl, ?_, rfl, rfl, rfl, rfl⟩
      · simp [likeArticle, require_auth, hty, getArticleOrError, hfind, hin]
      · rw [List.erase_append_right _ hmem]
        simp

/-- C3 witness: on the empty like table, the first toggle reports active. -/
theorem toggleLike_involution_witness :
    ∃ db1 act1, likeArticle c3Db (some c3User)
      { typeName := "ArticleType", dbId := 3 } = Except.ok (db1, act1) ∧
      act1 = true := by
  obtain ⟨db1, act1, h, hiff, -⟩ :=
    toggleLike_involution c3Db c3User { typeName := "ArticleType", dbId := 3 }
      c3Article rfl rfl (by simp [c3Db])
  exact ⟨db1, act1, h, hiff.mpr (by simp [c3Db])⟩

end NewsPortal
